import Mathlib

/-!
Shallow embedding of src/main.py, a FastAPI gateway in front of the GRVT
exchange SDK (GrvtCcxt).  The program keeps two module-level client handles
(read_client, trade_client), each endpoint resolves one of them through a
FastAPI dependency (get_read_api / get_trade_api), and every handler body is
a try/except block around one exchange-SDK call.

Modelling choices:
  - A client handle is a record of the credential strings it was built from
    (os.getenv may return None, hence Option String fields).
  - The module-level globals are an AppState with two Option fields; the
    lifespan initializer fills both from an environment dictionary.
  - Each exchange-SDK invocation is a constructor of ExchangeCall recording
    exactly the arguments the Python code passes.  The SDK itself is external:
    handlers take an oracle (ExchangeCall -> Except String Dict) standing for
    it; Except.error models any exception the SDK raises, and the opaque
    response payload is a string dictionary.
  - A handler returns its HTTP outcome together with the list of exchange
    calls it dispatched, in order, so dispatch-counting claims are statable.
  - FastAPI's HTTPException caught by the handlers' blanket
    `except Exception as e: raise HTTPException(500, str(e))` is modelled by
    wrapExc: str(e) of an HTTPException is "<code>: <detail>".
  - Python truthiness on Optional[str] / Optional[int] request fields is
    modelled by truthy_str / truthy_int (None, "" and 0 are falsy).
-/

namespace GrvtGateway

/-- Value of one entry of a params dictionary passed to the SDK: the source
passes strings (such as time_to_live_ms) and ints (such as client_order_id). -/
inductive ParamValue where
  | str (s : String)
  | int (n : Int)
  deriving DecidableEq, Repr

/-- A params dictionary passed through to an SDK call, in insertion order. -/
abbrev Params := List (String × ParamValue)

/-- An opaque string-valued dictionary: environment map, SDK response payload. -/
abbrev Dict := List (String × String)

/-- Lookup in a string dictionary, mirroring Python dict.get(k) / os.getenv. -/
def dictGet (d : Dict) (k : String) : Option String :=
  match d.find? (fun p => p.1 == k) with
  | none => none
  | some p => some p.2

/-- One GrvtCcxt client handle, recorded by the credential parameters the
lifespan initializer constructs it with (api_key, trading_account_id,
private_key; each os.getenv result may be None). -/
structure GrvtClient where
  api_key : Option String
  trading_account_id : Option String
  private_key : Option String
  deriving DecidableEq, Repr

/-- The module-level globals read_client / trade_client (None before the
lifespan initializer has run). -/
structure AppState where
  read_client : Option GrvtClient
  trade_client : Option GrvtClient
  deriving DecidableEq, Repr

/-- The lifespan initializer: builds both clients from the environment.
Mirrors lines 39-63 of main.py: read client from GRVT_API_KEY /
GRVT_TRADING_ACCOUNT_ID, trade client from GRVT_API_TRADE_KEY /
GRVT_TRADING_ACCOUNT_TRADE_ID, both sharing GRVT_PRIVATE_KEY. -/
def lifespan_init (env : Dict) : AppState :=
  let api_private_key := dictGet env "GRVT_PRIVATE_KEY"
  { read_client := some { api_key := dictGet env "GRVT_API_KEY",
                          trading_account_id := dictGet env "GRVT_TRADING_ACCOUNT_ID",
                          private_key := api_private_key }
    trade_client := some { api_key := dictGet env "GRVT_API_TRADE_KEY",
                           trading_account_id := dictGet env "GRVT_TRADING_ACCOUNT_TRADE_ID",
                           private_key := api_private_key } }

/-- An HTTP error response (FastAPI HTTPException): status code and detail. -/
structure HTTPError where
  status_code : Nat
  detail : String
  deriving DecidableEq, Repr

/-- Python str(e) for a FastAPI HTTPException e: "<status_code>: <detail>". -/
def strOfExc (e : HTTPError) : String :=
  toString e.status_code ++ ": " ++ e.detail

/-- The blanket `except Exception as e: raise HTTPException(500, str(e))`
applied to an HTTPException raised inside the try block: the original status
code is lost and the error is re-reported as a 500. -/
def wrapExc (e : HTTPError) : HTTPError :=
  { status_code := 500, detail := strOfExc e }

/-- Dependency get_read_api (main.py lines 72-76): the read client, or a 503
"Read Client not initialized" before the lifespan initializer has run. -/
def get_read_api (st : AppState) : Except HTTPError GrvtClient :=
  match st.read_client with
  | none => .error { status_code := 503, detail := "Read Client not initialized" }
  | some c => .ok c

/-- Dependency get_trade_api (main.py lines 78-82): the trade client, or a 503
"Trade Client not initialized" before the lifespan initializer has run. -/
def get_trade_api (st : AppState) : Except HTTPError GrvtClient :=
  match st.trade_client with
  | none => .error { status_code := 503, detail := "Trade Client not initialized" }
  | some c => .ok c

/-- One invocation of the exchange SDK, recording exactly the arguments the
Python handler passes. -/
inductive ExchangeCall where
  | fetchAllMarkets
  | fetchTicker (symbol : String)
  | fetchOrderBook (symbol : String) (limit : Int)
  | fetchBalance
  | getAccountSummary (ty : String)
  | fetchPositions (symbols : List String)
  | createOrder (symbol : String) (order_type : String) (side : String)
      (amount : Rat) (price : Option Rat) (params : Params)
  | fetchOpenOrders (symbol : String) (params : Params)
  | cancelOrder (id : Option String) (params : Params)
  | cancelAllOrders
  | setDeriskMm (value : String)
  | describe
  | fetchOrderHistory (params : Params)
  | fetchMyTrades (symbol : String) (limit : Int) (params : Params)
  | fetchFundingRateHistory (symbol : String) (since : Option Int) (limit : Int)
  | fetchAccountHistory (params : Params)
  deriving DecidableEq, Repr

/-- The params dictionary carried by a call, empty for calls that take none. -/
def callParams : ExchangeCall → Params
  | .createOrder _ _ _ _ _ p => p
  | .fetchOpenOrders _ p => p
  | .cancelOrder _ p => p
  | .fetchOrderHistory p => p
  | .fetchMyTrades _ _ p => p
  | .fetchAccountHistory p => p
  | _ => []

/-- Whether a call's params dictionary carries a time_to_live_ms entry. -/
def hasTtl (c : ExchangeCall) : Bool :=
  (callParams c).any (fun p => p.1 == "time_to_live_ms")

/-- The external SDK: maps a call to a response payload, or to the message of
the exception it raises. -/
abbrev Oracle := ExchangeCall → Except String Dict

/-- Outcome of one handler invocation: the HTTP-level result together with the
exchange calls dispatched, in order. -/
abbrev HandlerOut (α : Type) := Except HTTPError α × List ExchangeCall

/-- FastAPI dependency resolution: the handler body runs only if the
dependency yields a client; a dependency failure is returned as-is with no
exchange call dispatched. -/
def runHandler (dep : AppState → Except HTTPError GrvtClient)
    (body : GrvtClient → HandlerOut α) (st : AppState) : HandlerOut α :=
  match dep st with
  | .error e => (.error e, [])
  | .ok c => body c

/-- A handler body that is one SDK call inside try/except: an SDK exception is
re-raised as HTTPException(500, str(e)). -/
def callExchange (oracle : Oracle) (call : ExchangeCall) : HandlerOut Dict :=
  match oracle call with
  | .error msg => (.error { status_code := 500, detail := msg }, [call])
  | .ok r => (.ok r, [call])

/-- Python truthiness of an Optional[str]: None and "" are falsy. -/
def truthy_str : Option String → Bool
  | none => false
  | some s => !(s == "")

/-- Python truthiness of an Optional[int]: None and 0 are falsy. -/
def truthy_int : Option Int → Bool
  | none => false
  | some n => !(n == 0)

/-- Python truthiness of an Optional float price: None and 0.0 are falsy
(`if not order.price`). -/
def truthy_price : Option Rat → Bool
  | none => false
  | some x => !(x == 0)

/-- Pydantic request model OrderRequest (main.py lines 22-27). -/
structure OrderRequest where
  symbol : String := "BTC_USDT_Perp"
  side : String
  amount : Rat
  price : Option Rat := none
  order_type : String := "limit"
  deriving DecidableEq, Repr

/-- The field constraints pydantic enforces on OrderRequest before the handler
runs: side matches buy|sell, amount > 0, price (when given) > 0, order_type
matches limit|market. -/
def OrderRequest.validated (o : OrderRequest) : Bool :=
  (o.side == "buy" || o.side == "sell") &&
  (0 < o.amount) &&
  (match o.price with | none => true | some p => 0 < p) &&
  (o.order_type == "limit" || o.order_type == "market")

/-- Pydantic request model CancelOrderRequest (main.py lines 29-31). -/
structure CancelOrderRequest where
  order_id : Option String := none
  client_order_id : Option Int := none
  deriving DecidableEq, Repr

/-- Response of POST /orders on success: the locally generated client order id
together with the exchange response. -/
structure CreateOrderResult where
  client_order_id : Int
  response : Dict
  deriving DecidableEq, Repr

/-- Projection returned by GET /risk/derisk-ratio: three optional fields read
off the raw account summary. -/
structure RiskSummary where
  maintenance_margin : Option String
  derisk_margin : Option String
  derisk_to_maintenance : Option String
  deriving DecidableEq, Repr

/-! Endpoint handlers, one per route of main.py, in source order.  Each is the
dependency resolution (runHandler with the dependency named in its Depends
annotation) followed by the try/except body. -/

/-- GET /markets (main.py lines 102-108). -/
def get_markets (oracle : Oracle) : AppState → HandlerOut Dict :=
  runHandler get_read_api (fun _api => callExchange oracle .fetchAllMarkets)

/-- GET /instruments/s/ticker (main.py lines 110-116). -/
def get_ticker (oracle : Oracle) (symbol : String) : AppState → HandlerOut Dict :=
  runHandler get_read_api (fun _api => callExchange oracle (.fetchTicker symbol))

/-- GET /instruments/s/orderbook (main.py lines 118-124); limit defaults to 10
at the framework layer. -/
def get_order_book (oracle : Oracle) (symbol : String) (limit : Int) :
    AppState → HandlerOut Dict :=
  runHandler get_read_api (fun _api => callExchange oracle (.fetchOrderBook symbol limit))

/-- GET /account/balance (main.py lines 128-137). -/
def get_balance (oracle : Oracle) : AppState → HandlerOut Dict :=
  runHandler get_read_api (fun _api => callExchange oracle .fetchBalance)

/-- GET /account/summary (main.py lines 139-145); ty defaults to "sub-account"
at the framework layer. -/
def get_account_summary (oracle : Oracle) (ty : String) : AppState → HandlerOut Dict :=
  runHandler get_read_api (fun _api => callExchange oracle (.getAccountSummary ty))

/-- GET /account/positions (main.py lines 147-154): a falsy symbols argument
(None or the empty list) is replaced by the default list. -/
def get_positions (oracle : Oracle) (symbols : Option (List String)) :
    AppState → HandlerOut Dict :=
  runHandler get_read_api (fun _api =>
    let target_symbols := match symbols with
      | some (s :: rest) => s :: rest
      | _ => ["BTC_USDT_Perp"]
    callExchange oracle (.fetchPositions target_symbols))

/-- POST /orders (main.py lines 158-193).  Dependency: get_read_api, as in the
source.  The freshly drawn rand_uint32 value is the cid argument (randomness
is external); it is put into params before any dispatch.  In the limit branch
a falsy price raises HTTPException(400), which the blanket except then
re-raises as a 500 via wrapExc. -/
def create_order (oracle : Oracle) (cid : Int) (order : OrderRequest) :
    AppState → HandlerOut CreateOrderResult :=
  runHandler get_read_api (fun _api =>
    let params : Params := [("client_order_id", .int cid)]
    if order.order_type == "market" then
      let call := ExchangeCall.createOrder order.symbol "market" order.side
        order.amount none params
      match oracle call with
      | .error msg => (.error { status_code := 500, detail := msg }, [call])
      | .ok resp => (.ok { client_order_id := cid, response := resp }, [call])
    else
      if !(truthy_price order.price) then
        (.error (wrapExc { status_code := 400, detail := "Limit order requires price" }), [])
      else
        let call := ExchangeCall.createOrder order.symbol "limit" order.side
          order.amount order.price params
        match oracle call with
        | .error msg => (.error { status_code := 500, detail := msg }, [call])
        | .ok resp => (.ok { client_order_id := cid, response := resp }, [call]))

/-- GET /orders/open (main.py lines 195-204). -/
def get_open_orders_endpoint (oracle : Oracle) (symbol : String) :
    AppState → HandlerOut Dict :=
  runHandler get_read_api (fun _api =>
    callExchange oracle (.fetchOpenOrders symbol [("kind", .str "PERPETUAL")]))

/-- DELETE /orders (main.py lines 206-224).  Dependency: get_read_api, as in
the source.  Branching follows Python truthiness of the two optional fields;
the no-identifier HTTPException(400) is re-raised as a 500 via wrapExc. -/
def cancel_order_endpoint (oracle : Oracle) (request : CancelOrderRequest) :
    AppState → HandlerOut (String × Dict) :=
  runHandler get_read_api (fun _api =>
    if truthy_str request.order_id then
      let call := ExchangeCall.cancelOrder request.order_id
        [("time_to_live_ms", .str "1000")]
      match oracle call with
      | .error msg => (.error { status_code := 500, detail := msg }, [call])
      | .ok r => (.ok ("success", r), [call])
    else if truthy_int request.client_order_id then
      let call := ExchangeCall.cancelOrder none
        [("client_order_id", .int (request.client_order_id.getD 0)),
         ("time_to_live_ms", .str "1000")]
      match oracle call with
      | .error msg => (.error { status_code := 500, detail := msg }, [call])
      | .ok r => (.ok ("success", r), [call])
    else
      let exc : HTTPError :=
        { status_code := 400, detail := "Must provide order_id or client_order_id" }
      (.error (wrapExc exc), []))

/-- DELETE /orders/all (main.py lines 226-233): bare cancel_all_orders call,
no params dictionary at all. -/
def cancel_all_orders_endpoint (oracle : Oracle) : AppState → HandlerOut (String × Dict) :=
  runHandler get_read_api (fun _api =>
    let call := ExchangeCall.cancelAllOrders
    match oracle call with
    | .error msg => (.error { status_code := 500, detail := msg }, [call])
    | .ok r => (.ok ("success", r), [call]))

/-- GET /risk/derisk-ratio (main.py lines 237-248): fetches the sub-account
summary and projects three fields with dict.get (absent keys become None). -/
def get_derisk_summary (oracle : Oracle) : AppState → HandlerOut RiskSummary :=
  runHandler get_read_api (fun _api =>
    let call := ExchangeCall.getAccountSummary "sub-account"
    match oracle call with
    | .error msg => (.error { status_code := 500, detail := msg }, [call])
    | .ok acc =>
      (.ok { maintenance_margin := dictGet acc "maintenance_margin",
             derisk_margin := dictGet acc "derisk_margin",
             derisk_to_maintenance := dictGet acc "derisk_to_maintenance_margin_ratio" },
       [call]))

/-- POST /risk/derisk-ratio (main.py lines 250-257): passes the ratio string
through verbatim to set_derisk_mm_ratio. -/
def set_derisk_endpoint (oracle : Oracle) (value : String) :
    AppState → HandlerOut (String × String) :=
  runHandler get_read_api (fun _api =>
    let call := ExchangeCall.setDeriskMm value
    match oracle call with
    | .error msg => (.error { status_code := 500, detail := msg }, [call])
    | .ok _ => (.ok ("success", value), [call]))

/-- GET /exchange/info (main.py lines 259-270). -/
def get_exchange_description (oracle : Oracle) : AppState → HandlerOut Dict :=
  runHandler get_read_api (fun _api => callExchange oracle .describe)

/-- GET /history/orders (main.py lines 273-296).  Dependency: get_trade_api,
as in the source; the symbol query argument is accepted and ignored. -/
def get_order_history (oracle : Oracle) (limit : Int) : AppState → HandlerOut Dict :=
  runHandler get_trade_api (fun _api =>
    callExchange oracle
      (.fetchOrderHistory [("kind", .str "PERPETUAL"), ("limit", .int limit)]))

/-- GET /history/trades (main.py lines 299-316).  Dependency: get_trade_api. -/
def get_my_trades (oracle : Oracle) (symbol : String) (limit : Int) :
    AppState → HandlerOut Dict :=
  runHandler get_trade_api (fun _api =>
    callExchange oracle (.fetchMyTrades symbol limit []))

/-- GET /history/funding (main.py lines 319-342).  Dependency: get_trade_api.
since = int(start_time * 1_000_000) if start_time else None, so a falsy
start_time (absent or 0) yields None. -/
def get_funding_history (oracle : Oracle) (symbol : String) (limit : Int)
    (start_time : Option Int) : AppState → HandlerOut Dict :=
  runHandler get_trade_api (fun _api =>
    let since : Option Int :=
      if truthy_int start_time then some (start_time.getD 0 * 1000000) else none
    callExchange oracle (.fetchFundingRateHistory symbol since limit))

/-- GET /history/account (main.py lines 345-357).  Dependency: get_trade_api. -/
def get_account_history (oracle : Oracle) (limit : Int) : AppState → HandlerOut Dict :=
  runHandler get_trade_api (fun _api =>
    callExchange oracle (.fetchAccountHistory [("limit", .int limit)]))

/-! The route table: which dependency each route's Depends annotation names.
This is read directly off each route's signature in main.py. -/

/-- Which of the two session dependencies a route resolves. -/
inductive ApiDep where
  | read_api
  | trade_api
  deriving DecidableEq, Repr

/-- The api-dependent routes of main.py, in source order. -/
inductive Route where
  | get_markets
  | get_ticker
  | get_order_book
  | get_balance
  | get_account_summary
  | get_positions
  | create_order
  | get_open_orders_endpoint
  | cancel_order_endpoint
  | cancel_all_orders_endpoint
  | get_derisk_summary
  | set_derisk_endpoint
  | get_exchange_description
  | get_order_history
  | get_my_trades
  | get_funding_history
  | get_account_history
  deriving DecidableEq, Repr

/-- The dependency each route declares in its Depends annotation: every route
uses get_read_api except the four history routes, which use get_trade_api. -/
def routeDep : Route → ApiDep
  | .get_markets => .read_api
  | .get_ticker => .read_api
  | .get_order_book => .read_api
  | .get_balance => .read_api
  | .get_account_summary => .read_api
  | .get_positions => .read_api
  | .create_order => .read_api
  | .get_open_orders_endpoint => .read_api
  | .cancel_order_endpoint => .read_api
  | .cancel_all_orders_endpoint => .read_api
  | .get_derisk_summary => .read_api
  | .set_derisk_endpoint => .read_api
  | .get_exchange_description => .read_api
  | .get_order_history => .trade_api
  | .get_my_trades => .trade_api
  | .get_funding_history => .trade_api
  | .get_account_history => .trade_api

/-- Classification of routes by what they do, following the spec's taxonomy:
order placement and cancellation are trading actions; market data, balances,
positions, history and risk queries are reads.  The derisk setter is a risk
update, neither pure read nor order action. -/
def isOrderActionRoute : Route → Bool
  | .create_order => true
  | .cancel_order_endpoint => true
  | .cancel_all_orders_endpoint => true
  | _ => false

/-! Concrete sample data used by closed theorems and witnesses. -/

/-- A sample environment with all six configuration variables set. -/
def sampleEnv : Dict :=
  [("GRVT_ENV", "testnet"),
   ("GRVT_API_KEY", "rk"),
   ("GRVT_TRADING_ACCOUNT_ID", "acct-read"),
   ("GRVT_PRIVATE_KEY", "pk"),
   ("GRVT_API_TRADE_KEY", "tk"),
   ("GRVT_TRADING_ACCOUNT_TRADE_ID", "acct-trade")]

/-- The app state after the lifespan initializer ran on sampleEnv. -/
def initState : AppState := lifespan_init sampleEnv

/-- The read client initState holds. -/
def readClient0 : GrvtClient :=
  { api_key := some "rk", trading_account_id := some "acct-read", private_key := some "pk" }

/-- The trade client initState holds. -/
def tradeClient0 : GrvtClient :=
  { api_key := some "tk", trading_account_id := some "acct-trade", private_key := some "pk" }

/-- The app state before the lifespan initializer has run: both handles None. -/
def notReadyState : AppState := { read_client := none, trade_client := none }

/-- A sample SDK that acknowledges every call with a fixed payload. -/
def defaultOracle : Oracle := fun _ => .ok [("ack", "ok")]

/-- A sample account summary with derisk_margin missing and the other two
projected fields present. -/
def partialSummary : Dict :=
  [("maintenance_margin", "120.5"),
   ("derisk_to_maintenance_margin_ratio", "1.2"),
   ("total_equity", "9000")]

/-- A sample SDK that returns partialSummary for the sub-account summary. -/
def partialSummaryOracle : Oracle := fun c =>
  if c == .getAccountSummary "sub-account" then .ok partialSummary else .ok []

/-- The id argument of a cancelOrder call (the SDK's resolving identifier). -/
def idArg : ExchangeCall → Option String
  | .cancelOrder i _ => i
  | _ => none

/-- A sample valid limit order with a price. -/
def sampleLimitOrder : OrderRequest :=
  { symbol := "BTC_USDT_Perp", side := "buy", amount := 1,
    price := some 50000, order_type := "limit" }

/-- A sample limit order with the price field absent. -/
def noPriceLimitOrder : OrderRequest :=
  { symbol := "BTC_USDT_Perp", side := "buy", amount := 1,
    price := none, order_type := "limit" }

/-! Theorems, one per claim of the specification, plus witnesses. -/

/-- C1: the role segregation the spec states does not hold at the call site.
All three order-action routes (submit, cancel one, cancel all) declare the
get_read_api dependency, and the four read-only history routes declare
get_trade_api; behaviourally, order submission is refused with the read
client's 503 when only the trade client is initialized, and order-history
lookup with the trade client's 503 when only the read client is initialized. -/
theorem trading_routes_resolve_read_api :
    routeDep Route.create_order = ApiDep.read_api ∧
    routeDep Route.cancel_order_endpoint = ApiDep.read_api ∧
    routeDep Route.cancel_all_orders_endpoint = ApiDep.read_api ∧
    routeDep Route.get_order_history = ApiDep.trade_api ∧
    routeDep Route.get_my_trades = ApiDep.trade_api ∧
    routeDep Route.get_funding_history = ApiDep.trade_api ∧
    routeDep Route.get_account_history = ApiDep.trade_api ∧
    create_order defaultOracle 1 sampleLimitOrder
        { read_client := none, trade_client := some tradeClient0 } =
      (.error { status_code := 503, detail := "Read Client not initialized" }, []) ∧
    get_order_history defaultOracle 10
        { read_client := some readClient0, trade_client := none } =
      (.error { status_code := 503, detail := "Trade Client not initialized" }, []) := by
  refine ⟨rfl, rfl, rfl, rfl, rfl, rfl, rfl, rfl, rfl⟩

/-- C2: a limit order without a price dispatches zero exchange calls, but the
HTTPException(400) the handler raises is caught by its own blanket except
clause and re-reported as a 500, not a 4xx; with a positive price present,
exactly one createOrder call is dispatched carrying that price. -/
theorem create_order_limit_no_price_wrapped_500 :
    OrderRequest.validated noPriceLimitOrder = true ∧
    create_order defaultOracle 7 noPriceLimitOrder initState =
      (.error { status_code := 500, detail := "400: Limit order requires price" }, []) ∧
    (create_order defaultOracle 7 sampleLimitOrder initState).2 =
      [ExchangeCall.createOrder "BTC_USDT_Perp" "limit" "buy" 1 (some 50000)
        [("client_order_id", ParamValue.int 7)]] := by
  refine ⟨rfl, rfl, rfl⟩

/-- C3: a cancel request with neither identifier dispatches zero exchange
calls, but the HTTPException(400) the handler raises is caught by its own
blanket except clause and re-reported as a 500, not a 4xx. -/
theorem cancel_order_no_identifier_wrapped_500 :
    cancel_order_endpoint defaultOracle { order_id := none, client_order_id := none }
        initState =
      (.error { status_code := 500,
                detail := "400: Must provide order_id or client_order_id" }, []) := by
  rfl

/-- C4 counterexample: with both identifiers present but the exchange order id
equal to the empty string, the dispatched cancel call's id parameter is None,
not the supplied exchange order id, so the claim as stated fails. -/
theorem cancel_order_empty_order_id_counterexample :
    (cancel_order_endpoint defaultOracle
        { order_id := some "", client_order_id := some 1 } initState).2 =
      [ExchangeCall.cancelOrder none
        [("client_order_id", ParamValue.int 1),
         ("time_to_live_ms", ParamValue.str "1000")]] ∧
    idArg (ExchangeCall.cancelOrder none
        [("client_order_id", ParamValue.int 1),
         ("time_to_live_ms", ParamValue.str "1000")]) ≠ some "" := by
  exact ⟨rfl, by decide⟩

/-- C6 counterexample: a caller-supplied start_time of 0 is falsy in the
handler's conditional, so no since value is passed, although the claim as
stated requires since = 0 * 1,000,000. -/
theorem funding_history_zero_start_time_counterexample :
    (get_funding_history defaultOracle "BTC_USDT_Perp" 100 (some 0) initState).2 =
      [ExchangeCall.fetchFundingRateHistory "BTC_USDT_Perp" none 100] ∧
    (none : Option Int) ≠ some (0 * 1000000) := by
  exact ⟨rfl, by decide⟩

/-- C8 counterexample: the cancel-all endpoint dispatches a bare
cancelAllOrders call that carries no time_to_live_ms parameter, so the claim
that every cancellation call carries the time-to-live fails. -/
theorem cancel_all_no_ttl_counterexample :
    (cancel_all_orders_endpoint defaultOracle initState).2 =
      [ExchangeCall.cancelAllOrders] ∧
    hasTtl ExchangeCall.cancelAllOrders = false := by
  exact ⟨rfl, rfl⟩

/-- C9: before the lifespan initializer has run (both handles None), every
api-dependent endpoint returns its dependency's 503 not-initialized error and
dispatches no exchange call, for any request arguments and any SDK. -/
theorem endpoints_before_init_unavailable :
    (∀ oracle, get_markets oracle notReadyState =
      (.error { status_code := 503, detail := "Read Client not initialized" }, [])) ∧
    (∀ oracle symbol, get_ticker oracle symbol notReadyState =
      (.error { status_code := 503, detail := "Read Client not initialized" }, [])) ∧
    (∀ oracle symbol limit, get_order_book oracle symbol limit notReadyState =
      (.error { status_code := 503, detail := "Read Client not initialized" }, [])) ∧
    (∀ oracle, get_balance oracle notReadyState =
      (.error { status_code := 503, detail := "Read Client not initialized" }, [])) ∧
    (∀ oracle ty, get_account_summary oracle ty notReadyState =
      (.error { status_code := 503, detail := "Read Client not initialized" }, [])) ∧
    (∀ oracle symbols, get_positions oracle symbols notReadyState =
      (.error { status_code := 503, detail := "Read Client not initialized" }, [])) ∧
    (∀ oracle cid order, create_order oracle cid order notReadyState =
      (.error { status_code := 503, detail := "Read Client not initialized" }, [])) ∧
    (∀ oracle symbol, get_open_orders_endpoint oracle symbol notReadyState =
      (.error { status_code := 503, detail := "Read Client not initialized" }, [])) ∧
    (∀ oracle req, cancel_order_endpoint oracle req notReadyState =
      (.error { status_code := 503, detail := "Read Client not initialized" }, [])) ∧
    (∀ oracle, cancel_all_orders_endpoint oracle notReadyState =
      (.error { status_code := 503, detail := "Read Client not initialized" }, [])) ∧
    (∀ oracle, get_derisk_summary oracle notReadyState =
      (.error { status_code := 503, detail := "Read Client not initialized" }, [])) ∧
    (∀ oracle value, set_derisk_endpoint oracle value notReadyState =
      (.error { status_code := 503, detail := "Read Client not initialized" }, [])) ∧
    (∀ oracle, get_exchange_description oracle notReadyState =
      (.error { status_code := 503, detail := "Read Client not initialized" }, [])) ∧
    (∀ oracle limit, get_order_history oracle limit notReadyState =
      (.error { status_code := 503, detail := "Trade Client not initialized" }, [])) ∧
    (∀ oracle symbol limit, get_my_trades oracle symbol limit notReadyState =
      (.error { status_code := 503, detail := "Trade Client not initialized" }, [])) ∧
    (∀ oracle symbol limit t, get_funding_history oracle symbol limit t notReadyState =
      (.error { status_code := 503, detail := "Trade Client not initialized" }, [])) ∧
    (∀ oracle limit, get_account_history oracle limit notReadyState =
      (.error { status_code := 503, detail := "Trade Client not initialized" }, [])) := by
  refine ⟨?_, ?_, ?_, ?_, ?_, ?_, ?_, ?_, ?_, ?_, ?_, ?_, ?_, ?_, ?_, ?_, ?_⟩ <;>
    intros <;> rfl

/-- C10: falsy identifier values in a cancel request are treated as absent:
with order_id = "" the handler behaves exactly as with order_id = None (the
client-id path is taken when the client id is truthy), with client_order_id
= 0 it behaves exactly as with client_order_id = None, and a request with
only client_order_id = 0 is rejected exactly like a request with neither
field, with no exchange call dispatched. -/
theorem cancel_falsy_identifiers_treated_absent (oracle : Oracle) (st : AppState) :
    (∀ c, cancel_order_endpoint oracle { order_id := some "", client_order_id := c } st =
      cancel_order_endpoint oracle { order_id := none, client_order_id := c } st) ∧
    (∀ o, cancel_order_endpoint oracle { order_id := o, client_order_id := some 0 } st =
      cancel_order_endpoint oracle { order_id := o, client_order_id := none } st) ∧
    cancel_order_endpoint oracle { order_id := none, client_order_id := some 0 } initState =
      cancel_order_endpoint oracle { order_id := none, client_order_id := none } initState ∧
    cancel_order_endpoint oracle { order_id := none, client_order_id := some 0 } initState =
      (.error { status_code := 500,
                detail := "400: Must provide order_id or client_order_id" }, []) := by
  exact ⟨fun c => rfl, fun o => rfl, rfl, rfl⟩

/-- C10 witness: the falsy-identifier theorem applied at the sample SDK and
the initialized state. -/
theorem cancel_falsy_identifiers_treated_absent_witness :
    (∀ c, cancel_order_endpoint defaultOracle
        { order_id := some "", client_order_id := c } initState =
      cancel_order_endpoint defaultOracle
        { order_id := none, client_order_id := c } initState) ∧
    (∀ o, cancel_order_endpoint defaultOracle
        { order_id := o, client_order_id := some 0 } initState =
      cancel_order_endpoint defaultOracle
        { order_id := o, client_order_id := none } initState) ∧
    cancel_order_endpoint defaultOracle
        { order_id := none, client_order_id := some 0 } initState =
      cancel_order_endpoint defaultOracle
        { order_id := none, client_order_id := none } initState ∧
    cancel_order_endpoint defaultOracle
        { order_id := none, client_order_id := some 0 } initState =
      (.error { status_code := 500,
                detail := "400: Must provide order_id or client_order_id" }, []) :=
  cancel_falsy_identifiers_treated_absent defaultOracle initState

/-- C4 (amended): with both identifiers present and the exchange order id
non-empty, the dispatched cancel call resolves by that exchange order id, and
no client_order_id entry appears in the call's params. -/
theorem cancel_order_nonempty_order_id_precedence (oracle : Oracle) (st : AppState)
    (c : GrvtClient) (oid : String) (cid : Int)
    (hread : st.read_client = some c) (hoid : oid ≠ "") :
    (cancel_order_endpoint oracle
        { order_id := some oid, client_order_id := some cid } st).2 =
      [ExchangeCall.cancelOrder (some oid)
        [("time_to_live_ms", ParamValue.str "1000")]] ∧
    ∀ call ∈ (cancel_order_endpoint oracle
        { order_id := some oid, client_order_id := some cid } st).2,
      ∀ p ∈ callParams call, p.1 ≠ "client_order_id" := by
  have hb : truthy_str (some oid) = true := by
    simp [truthy_str, hoid]
  have htrace : (cancel_order_endpoint oracle
      { order_id := some oid, client_order_id := some cid } st).2 =
      [ExchangeCall.cancelOrder (some oid)
        [("time_to_live_ms", ParamValue.str "1000")]] := by
    cases hres : oracle (ExchangeCall.cancelOrder (some oid)
        [("time_to_live_ms", ParamValue.str "1000")]) <;>
      simp [cancel_order_endpoint, runHandler, get_read_api, hread, hb, hres]
  refine ⟨htrace, ?_⟩
  intro call hcall p hp
  rw [htrace] at hcall
  simp only [List.mem_singleton] at hcall
  subst hcall
  simp only [callParams, List.mem_singleton] at hp
  subst hp
  decide

/-- C4 witness: the amended precedence theorem applied at a concrete request
with order_id = "oid-1" and client_order_id = 2 against the initialized
state. -/
theorem cancel_order_nonempty_order_id_precedence_witness :
    initState.read_client = some readClient0 ∧ "oid-1" ≠ "" ∧
    ((cancel_order_endpoint defaultOracle
        { order_id := some "oid-1", client_order_id := some 2 } initState).2 =
      [ExchangeCall.cancelOrder (some "oid-1")
        [("time_to_live_ms", ParamValue.str "1000")]] ∧
    ∀ call ∈ (cancel_order_endpoint defaultOracle
        { order_id := some "oid-1", client_order_id := some 2 } initState).2,
      ∀ p ∈ callParams call, p.1 ≠ "client_order_id") :=
  ⟨rfl, by decide,
    cancel_order_nonempty_order_id_precedence defaultOracle initState readClient0
      "oid-1" 2 rfl (by decide)⟩

/-- C5: for any drawn client order id and any order, every exchange call the
submission dispatches carries that id in its params as client_order_id, and a
successful submission returns exactly that id together with the response of
the single dispatched call. -/
theorem create_order_correlates_client_order_id (oracle : Oracle) (cid : Int)
    (order : OrderRequest) (st : AppState) (c : GrvtClient)
    (hread : st.read_client = some c) :
    (∀ call ∈ (create_order oracle cid order st).2,
        ("client_order_id", ParamValue.int cid) ∈ callParams call) ∧
    (∀ res, (create_order oracle cid order st).1 = .ok res →
        res.client_order_id = cid ∧
        ∃ call, (create_order oracle cid order st).2 = [call] ∧
          oracle call = .ok res.response) := by
  have hrun : create_order oracle cid order st =
      (if order.order_type == "market" then
        let call := ExchangeCall.createOrder order.symbol "market" order.side
          order.amount none [("client_order_id", .int cid)]
        match oracle call with
        | .error msg => (.error { status_code := 500, detail := msg }, [call])
        | .ok resp => (.ok { client_order_id := cid, response := resp }, [call])
      else
        if !(truthy_price order.price) then
          (.error (wrapExc { status_code := 400, detail := "Limit order requires price" }), [])
        else
          let call := ExchangeCall.createOrder order.symbol "limit" order.side
            order.amount order.price [("client_order_id", .int cid)]
          match oracle call with
          | .error msg => (.error { status_code := 500, detail := msg }, [call])
          | .ok resp => (.ok { client_order_id := cid, response := resp }, [call])) := by
    simp [create_order, runHandler, get_read_api, hread]
  rw [hrun]
  by_cases hm : (order.order_type == "market") = true
  · simp only [hm, if_true]
    cases hres : oracle (ExchangeCall.createOrder order.symbol "market" order.side
        order.amount none [("client_order_id", .int cid)]) with
    | error msg => simp [hres, callParams]
    | ok resp =>
      refine ⟨?_, ?_⟩
      · intro call hcall
        simp only [hres, List.mem_singleton] at hcall
        subst hcall
        simp [callParams]
      · intro res hres2
        simp only [hres] at hres2
        cases hres2
        refine ⟨rfl, ExchangeCall.createOrder order.symbol "market" order.side
          order.amount none [("client_order_id", .int cid)], ?_, hres⟩
        simp [hres]
  · simp only [hm, if_false, Bool.false_eq_true] at *
    by_cases hp : truthy_price order.price = true
    · simp only [hp, Bool.not_true, if_false, Bool.false_eq_true]
      cases hres : oracle (ExchangeCall.createOrder order.symbol "limit" order.side
          order.amount order.price [("client_order_id", .int cid)]) with
      | error msg => simp [hres, callParams]
      | ok resp =>
        refine ⟨?_, ?_⟩
        · intro call hcall
          simp only [hres, List.mem_singleton] at hcall
          subst hcall
          simp [callParams]
        · intro res hres2
          simp only [hres] at hres2
          cases hres2
          refine ⟨rfl, ExchangeCall.createOrder order.symbol "limit" order.side
            order.amount order.price [("client_order_id", .int cid)], ?_, hres⟩
          simp [hres]
    · simp only [Bool.not_eq_true] at hp
      simp [hm, hp]

/-- C5 witness: the correlation theorem applied to the sample limit order with
the drawn id 9 against the initialized state. -/
theorem create_order_correlates_client_order_id_witness :
    initState.read_client = some readClient0 ∧
    ((∀ call ∈ (create_order defaultOracle 9 sampleLimitOrder initState).2,
        ("client_order_id", ParamValue.int 9) ∈ callParams call) ∧
    (∀ res, (create_order defaultOracle 9 sampleLimitOrder initState).1 = .ok res →
        res.client_order_id = 9 ∧
        ∃ call, (create_order defaultOracle 9 sampleLimitOrder initState).2 = [call] ∧
          defaultOracle call = .ok res.response)) :=
  ⟨rfl, create_order_correlates_client_order_id defaultOracle 9 sampleLimitOrder
    initState readClient0 rfl⟩

/-- C6 (amended): a nonzero caller-supplied millisecond start_time is passed
to the exchange as since = start_time * 1,000,000 nanoseconds; an absent or
zero start_time passes no since value (None). -/
theorem funding_history_since_conversion (oracle : Oracle) (symbol : String)
    (limit : Int) (start_time : Option Int) (st : AppState) (c : GrvtClient)
    (htrade : st.trade_client = some c) :
    (∀ t : Int, start_time = some t → t ≠ 0 →
      (get_funding_history oracle symbol limit start_time st).2 =
        [ExchangeCall.fetchFundingRateHistory symbol (some (t * 1000000)) limit]) ∧
    ((start_time = none ∨ start_time = some 0) →
      (get_funding_history oracle symbol limit start_time st).2 =
        [ExchangeCall.fetchFundingRateHistory symbol none limit]) := by
  constructor
  · intro t ht htz
    subst ht
    have hb : truthy_int (some t) = true := by
      simp [truthy_int, htz]
    cases hres : oracle (ExchangeCall.fetchFundingRateHistory symbol
        (some (t * 1000000)) limit) <;>
      simp [get_funding_history, runHandler, get_trade_api, htrade, hb,
        callExchange, hres, Option.getD]
  · intro hz
    have hb : truthy_int start_time = false := by
      rcases hz with h | h <;> subst h <;> rfl
    cases hres : oracle (ExchangeCall.fetchFundingRateHistory symbol none limit) <;>
      simp [get_funding_history, runHandler, get_trade_api, htrade, hb,
        callExchange, hres]

/-- C6 witness: the conversion theorem applied at the spec's example input
start_time = 1,700,000,000,000 ms against the initialized state, yielding
since = 1,700,000,000,000,000,000 ns. -/
theorem funding_history_since_conversion_witness :
    initState.trade_client = some tradeClient0 ∧
    (1700000000000 * 1000000 : Int) = 1700000000000000000 ∧
    (get_funding_history defaultOracle "BTC_USDT_Perp" 100
        (some 1700000000000) initState).2 =
      [ExchangeCall.fetchFundingRateHistory "BTC_USDT_Perp"
        (some (1700000000000 * 1000000)) 100] :=
  ⟨rfl, by norm_num,
    (funding_history_since_conversion defaultOracle "BTC_USDT_Perp" 100
      (some 1700000000000) initState tradeClient0 rfl).1 1700000000000 rfl
      (by norm_num)⟩

/-- C7: the risk-summary query projects the three fields off the raw account
summary with dict.get and never fails on partial data: the call succeeds for
every raw response, a key absent from the raw response yields a None field,
and a populated field always comes verbatim from the raw response. -/
theorem derisk_summary_projection_partial_data (oracle : Oracle) (st : AppState)
    (c : GrvtClient) (raw : Dict)
    (hread : st.read_client = some c)
    (hacc : oracle (ExchangeCall.getAccountSummary "sub-account") = .ok raw) :
    (get_derisk_summary oracle st).1 =
      .ok { maintenance_margin := dictGet raw "maintenance_margin",
            derisk_margin := dictGet raw "derisk_margin",
            derisk_to_maintenance := dictGet raw "derisk_to_maintenance_margin_ratio" } ∧
    (∀ k, (∀ p ∈ raw, p.1 ≠ k) → dictGet raw k = none) ∧
    (∀ k v, dictGet raw k = some v → (k, v) ∈ raw) := by
  refine ⟨?_, ?_, ?_⟩
  · simp [get_derisk_summary, runHandler, get_read_api, hread, hacc]
  · intro k h
    unfold dictGet
    rw [List.find?_eq_none.mpr]
    intro p hp
    simpa using h p hp
  · intro k v hkv
    unfold dictGet at hkv
    cases hf : raw.find? (fun p => p.1 == k) with
    | none => rw [hf] at hkv; cases hkv
    | some p =>
      rw [hf] at hkv
      have hmem := List.mem_of_find?_eq_some hf
      have hpk : p.1 = k := by
        have hq := List.find?_some hf
        simpa using hq
      cases hkv
      rw [← hpk]
      exact hmem

/-- C7 witness: the projection theorem applied to a sample raw summary that
misses derisk_margin; the result populates the other two fields and leaves
derisk_margin None, with no failure. -/
theorem derisk_summary_projection_partial_data_witness :
    initState.read_client = some readClient0 ∧
    partialSummaryOracle (ExchangeCall.getAccountSummary "sub-account") =
      .ok partialSummary ∧
    (get_derisk_summary partialSummaryOracle initState).1 =
      .ok { maintenance_margin := some "120.5", derisk_margin := none,
            derisk_to_maintenance := some "1.2" } :=
  ⟨rfl, rfl,
    (derisk_summary_projection_partial_data partialSummaryOracle initState
      readClient0 partialSummary rfl rfl).1⟩

/-- C8 (amended): the two single-order cancellation paths both dispatch a call
whose params carry time_to_live_ms, while the cancel-all endpoint dispatches
a bare cancelAllOrders call that carries no time-to-live parameter. -/
theorem cancel_ttl_param (oracle : Oracle) (st : AppState) (c : GrvtClient)
    (req : CancelOrderRequest) (hread : st.read_client = some c) :
    (∀ call ∈ (cancel_order_endpoint oracle req st).2, hasTtl call = true) ∧
    (∀ call ∈ (cancel_all_orders_endpoint oracle st).2, hasTtl call = false) := by
  constructor
  · intro call hcall
    simp only [cancel_order_endpoint, runHandler, get_read_api, hread] at hcall
    by_cases h1 : truthy_str req.order_id = true
    · rw [if_pos h1] at hcall
      rcases hres : oracle (ExchangeCall.cancelOrder req.order_id
          [("time_to_live_ms", ParamValue.str "1000")]) with msg | r <;>
        rw [hres] at hcall <;> simp only [List.mem_singleton] at hcall <;>
        subst hcall <;> rfl
    · rw [if_neg h1] at hcall
      by_cases h2 : truthy_int req.client_order_id = true
      · rw [if_pos h2] at hcall
        rcases hres : oracle (ExchangeCall.cancelOrder none
            [("client_order_id", ParamValue.int (req.client_order_id.getD 0)),
             ("time_to_live_ms", ParamValue.str "1000")]) with msg | r <;>
          rw [hres] at hcall <;> simp only [List.mem_singleton] at hcall <;>
          subst hcall <;> rfl
      · rw [if_neg h2] at hcall
        simp at hcall
  · intro call hcall
    simp only [cancel_all_orders_endpoint, runHandler, get_read_api, hread] at hcall
    rcases hres : oracle ExchangeCall.cancelAllOrders with msg | r <;>
      rw [hres] at hcall <;> simp only [List.mem_singleton] at hcall <;>
      subst hcall <;> rfl

/-- C8 witness: the amended time-to-live theorem applied at a concrete
cancel-by-id request against the initialized state. -/
theorem cancel_ttl_param_witness :
    initState.read_client = some readClient0 ∧
    ((∀ call ∈ (cancel_order_endpoint defaultOracle
        { order_id := some "o1", client_order_id := none } initState).2,
      hasTtl call = true) ∧
    (∀ call ∈ (cancel_all_orders_endpoint defaultOracle initState).2,
      hasTtl call = false)) :=
  ⟨rfl, cancel_ttl_param defaultOracle initState readClient0
    { order_id := some "o1", client_order_id := none } rfl⟩

end GrvtGateway
